import Mathlib

/-!
Verification of the virtual-scroll engine

Shallow embedding of the scroll engine of `neptune-3d/virtual-scroll`.

Numeric model: JavaScript numbers are modelled by exact rationals (`ℚ`).
Where the source can produce the IEEE special values `Infinity` / `NaN`
(division by a zero `trackToScrollFactor` or a zero `itemSize`), the
embedding uses the type `EJS` of extended JS values, whose arithmetic
mirrors the IEEE / ECMAScript rules for those specials exactly; on finite
values the arithmetic is exact rational arithmetic.

Two engine variants are embedded, following the two classes in
`src/getWheelPxDelta.ts`:
* `Engine`   — the pull-accessor class (geometry read through callbacks,
  commits through `setScrollOffset`);
* `FieldEngine` — the mutable-field class (geometry setters with
  measurement reconciliation, handlers invoke the observer directly).
The `dispose` method of the third variant (`src/VirtualScroll.ts`) is
embedded on its own state record `VS`.
-/

/-- Extended JS number: an exact rational, `Infinity`, `-Infinity` or `NaN`. -/
inductive EJS where
  | fin (q : ℚ)
  | posInf
  | negInf
  | nan
deriving DecidableEq, Repr

/-- JS division `a / b` of finite values: IEEE semantics for a zero divisor
(the divisors arising in the engine are non-negative, so zero stands for `+0`). -/
def jsDivQ (a b : ℚ) : EJS :=
  if b = 0 then
    if 0 < a then .posInf else if a < 0 then .negInf else .nan
  else .fin (a / b)

/-- JS addition on extended values. -/
def jsAddE : EJS → EJS → EJS
  | .nan, _ => .nan
  | _, .nan => .nan
  | .posInf, .negInf => .nan
  | .negInf, .posInf => .nan
  | .posInf, _ => .posInf
  | _, .posInf => .posInf
  | .negInf, _ => .negInf
  | _, .negInf => .negInf
  | .fin a, .fin b => .fin (a + b)

/-- JS multiplication on extended values. -/
def jsMulE : EJS → EJS → EJS
  | .nan, _ => .nan
  | _, .nan => .nan
  | .fin a, .fin b => .fin (a * b)
  | .fin a, .posInf => if 0 < a then .posInf else if a < 0 then .negInf else .nan
  | .posInf, .fin b => if 0 < b then .posInf else if b < 0 then .negInf else .nan
  | .fin a, .negInf => if 0 < a then .negInf else if a < 0 then .posInf else .nan
  | .negInf, .fin b => if 0 < b then .negInf else if b < 0 then .posInf else .nan
  | .posInf, .posInf => .posInf
  | .posInf, .negInf => .negInf
  | .negInf, .posInf => .negInf
  | .negInf, .negInf => .posInf

/-- JS `Math.min` on extended values (`NaN` absorbs, as in `Math.min`). -/
def jsMinE : EJS → EJS → EJS
  | .nan, _ => .nan
  | _, .nan => .nan
  | .posInf, b => b
  | a, .posInf => a
  | .negInf, _ => .negInf
  | _, .negInf => .negInf
  | .fin a, .fin b => .fin (min a b)

/-- JS `Math.max` on extended values (`NaN` absorbs, as in `Math.max`). -/
def jsMaxE : EJS → EJS → EJS
  | .nan, _ => .nan
  | _, .nan => .nan
  | .negInf, b => b
  | a, .negInf => a
  | .posInf, _ => .posInf
  | _, .posInf => .posInf
  | .fin a, .fin b => .fin (max a b)

/-- JS `Math.sign` on a finite value. -/
def signQ (q : ℚ) : ℚ :=
  if q < 0 then -1 else if 0 < q then 1 else 0

/-- Truncation toward zero, as JS division-based remainder uses. -/
def jsTrunc (q : ℚ) : ℤ :=
  if q < 0 then ⌈q⌉ else ⌊q⌋

/-- JS remainder `a % b` for a nonzero divisor: `a - b * trunc (a / b)`
(result carries the sign of the dividend). The `b = 0` branch is never
relied upon by any theorem (JS would give `NaN` there); every statement
touching a remainder carries the hypothesis that the divisor is nonzero. -/
def jsMod (a b : ℚ) : ℚ :=
  if b = 0 then a else a - b * (jsTrunc (a / b) : ℚ)

/-- JS `Math.round`: round half toward positive infinity. -/
def jsRound (q : ℚ) : ℤ := ⌊q + 1 / 2⌋

/-- Translates `clamp(x, lo, hi)` written the way the engine writes it:
`Math.max(lo, Math.min(x, hi))`. -/
def clampQ (x lo hi : ℚ) : ℚ := max lo (min x hi)

/-- Alignment argument of `scrollItemIntoView`. -/
inductive Align where
  | nearest
  | start
  | toEnd
  | center
deriving DecidableEq, Repr

/-- Direction argument of `handlePageScroll`. -/
inductive Direction where
  | up
  | down
deriving DecidableEq, Repr

/-- State of the pull-accessor `VirtualScroll` class of `src/getWheelPxDelta.ts`.
The pull callbacks (`getViewportSize`, …) are modelled by the values they
return; the optional `getItemSize` / `getItemCount` callbacks are modelled
by `Option ℚ` (`none` = callback not provided, matching the `?.() ?? d`
fallbacks in the getters). The `requestAnimationFrame` handle is modelled
by `Option Unit` (`none` = no frame scheduled). -/
structure Engine where
  viewportSize : ℚ
  contentSize : ℚ
  trackSize : ℚ
  getItemSize : Option ℚ
  getItemCount : Option ℚ
  minThumbSize : ℚ
  minVelocityPxStep : ℚ
  maxVelocityPxStep : ℚ
  minVelocityItemStep : ℚ
  maxVelocityItemStep : ℚ
  inertiaDecay : ℚ
  scrollOffset : ℚ
  pxVelocity : ℚ
  itemVelocity : ℚ
  wheelAnimationFrame : Option Unit
deriving DecidableEq, Repr

namespace Engine

/-- Translates `get itemSize()`: `this._getItemSize?.() ?? 1`. The fallback `1` applies
only when no callback was provided; a provided callback's value is used
unchanged, whatever it is. -/
def itemSize (s : Engine) : ℚ := s.getItemSize.getD 1

/-- Translates `get itemCount()`: `this._getItemCount?.() ?? 0`. -/
def itemCount (s : Engine) : ℚ := s.getItemCount.getD 0

/-- Translates `get maxScrollOffset()`: `Math.max(0, contentSize - viewportSize)`. -/
def maxScrollOffset (s : Engine) : ℚ := max 0 (s.contentSize - s.viewportSize)

/-- Translates `get isScrollingNeeded()`: `contentSize > viewportSize`. -/
def isScrollingNeeded (s : Engine) : Bool := decide (s.viewportSize < s.contentSize)

/-- Translates `get scrollRatio()`. -/
def scrollRatio (s : Engine) : ℚ :=
  if isScrollingNeeded s then s.scrollOffset / maxScrollOffset s else 0

/-- Translates `set scrollRatio(ratio)`. -/
def setScrollRatio (s : Engine) (ratio : ℚ) : Engine :=
  if isScrollingNeeded s then
    { s with scrollOffset := max 0 (min ratio 1) * maxScrollOffset s }
  else
    { s with scrollOffset := 0 }

/-- Translates `get thumbSize()`. -/
def thumbSize (s : Engine) : ℚ :=
  if s.contentSize ≤ 0 ∨ s.trackSize = 0 then 0
  else max (min 1 (s.viewportSize / s.contentSize) * s.trackSize) s.minThumbSize

/-- Translates `get thumbTravelSize()`: `Math.max(0, trackSize - thumbSize)`. -/
def thumbTravelSize (s : Engine) : ℚ := max 0 (s.trackSize - thumbSize s)

/-- Translates `get trackToScrollFactor()`. -/
def trackToScrollFactor (s : Engine) : ℚ :=
  if isScrollingNeeded s then thumbTravelSize s / maxScrollOffset s else 0

/-- Translates `setScrollOffset` fires the observer iff `newScrollOffset !== _scrollOffset`.
The stored offset is always a plain number, so the JS `!==` (on which `NaN`
compares unequal to every number) coincides with inequality in `EJS`. -/
def setScrollOffsetFires (oldOffset : ℚ) (newOffset : EJS) : Bool :=
  decide (newOffset ≠ EJS.fin oldOffset)

/-- Translates `handleDelta(delta)` of the pull-accessor class: returns the committed
scroll offset (as an extended JS value, since `delta / trackToScrollFactor`
can be `±Infinity` or `NaN` when the factor is zero) together with whether
the observer fired. When scrolling is not needed the method returns without
committing. -/
def handleDelta (s : Engine) (delta : ℚ) : EJS × Bool :=
  if isScrollingNeeded s then
    let newScrollOffset :=
      jsMaxE (.fin 0)
        (jsMinE
          (jsAddE (.fin s.scrollOffset) (jsDivQ delta (trackToScrollFactor s)))
          (.fin (maxScrollOffset s)))
    (newScrollOffset, setScrollOffsetFires s.scrollOffset newScrollOffset)
  else
    (.fin s.scrollOffset, false)

/-- Translates `handleTrackClick(clientCoord, viewportTrackStart)`. -/
def handleTrackClick (s : Engine) (clientCoord viewportTrackStart : ℚ) :
    Engine × Bool :=
  if isScrollingNeeded s then
    let clickPos := clientCoord - viewportTrackStart
    let desiredThumbOffset := clickPos - thumbSize s / 2
    let clampedThumbOffset := max 0 (min desiredThumbOffset (thumbTravelSize s))
    let newScrollOffset :=
      if 0 < thumbTravelSize s then
        clampedThumbOffset / thumbTravelSize s * maxScrollOffset s
      else 0
    ({ s with scrollOffset := newScrollOffset },
      decide (newScrollOffset ≠ s.scrollOffset))
  else
    (s, false)

/-- Translates `getPageScrollOffset(scrollOffset, direction)`. -/
def getPageScrollOffset (s : Engine) (scrollOffset : ℚ) (direction : Direction) : ℚ :=
  let scrollExtent := max s.contentSize s.viewportSize
  let maxOffset := scrollExtent - s.viewportSize
  let newScrollOffset :=
    match direction with
    | .down => scrollOffset + s.viewportSize
    | .up => scrollOffset - s.viewportSize
  max 0 (min maxOffset newScrollOffset)

/-- Translates `handlePageScroll(direction)`. -/
def handlePageScroll (s : Engine) (direction : Direction) : Engine × Bool :=
  if isScrollingNeeded s then
    let newScrollOffset := getPageScrollOffset s s.scrollOffset direction
    ({ s with scrollOffset := newScrollOffset },
      decide (newScrollOffset ≠ s.scrollOffset))
  else
    (s, false)

/-- Translates `scrollItemIntoView(itemIndex, align)`. -/
def scrollItemIntoView (s : Engine) (itemIndex : ℚ) (align : Align) :
    Engine × Bool :=
  if isScrollingNeeded s then
    let rowTop := itemIndex * itemSize s
    let rowBottom := rowTop + itemSize s
    let viewportTop := s.scrollOffset
    let viewportBottom := viewportTop + s.viewportSize
    let newOffset :=
      match align with
      | .start => rowTop
      | .toEnd => rowBottom - s.viewportSize
      | .center => rowTop - (s.viewportSize - itemSize s) / 2
      | .nearest =>
          if rowTop < viewportTop then rowTop
          else if viewportBottom < rowBottom then rowBottom - s.viewportSize
          else s.scrollOffset
    let clamped := max 0 (min newOffset (maxScrollOffset s))
    ({ s with scrollOffset := clamped }, decide (clamped ≠ s.scrollOffset))
  else
    (s, false)

/-- Translates `getWheelPxDelta(delta, deltaMode)` (method form). -/
def getWheelPxDeltaFn (s : Engine) (delta : ℚ) (deltaMode : ℕ) : ℚ :=
  if deltaMode = 1 then delta * itemSize s
  else if deltaMode = 2 then delta * s.viewportSize
  else delta

/-- Translates `getVelocityPxStep(normalizedDeltaPx)`. -/
def getVelocityPxStep (s : Engine) (normalizedDeltaPx : ℚ) : ℚ :=
  let sign := signQ normalizedDeltaPx
  if sign = 0 then 0
  else if |normalizedDeltaPx| ≤ s.minVelocityPxStep then sign * s.minVelocityPxStep
  else sign * min (max |normalizedDeltaPx| s.minVelocityPxStep) s.maxVelocityPxStep

/-- Translates `getWheelItemDelta(delta, deltaMode)` in the exact rational model.
Page mode (`deltaMode = 2`) divides by `itemSize`; this rational version is
faithful whenever `itemSize ≠ 0` (and in modes 0 and 1, which do not divide).
The extended-value version `getWheelItemDeltaE` below captures the
`itemSize = 0` behaviour. -/
def getWheelItemDelta (s : Engine) (delta : ℚ) (deltaMode : ℕ) : ℚ :=
  if deltaMode = 1 then delta
  else if deltaMode = 2 then delta * (s.viewportSize / itemSize s)
  else signQ delta

/-- Translates `getWheelItemDelta(delta, deltaMode)` with exact JS division semantics:
in page mode, `viewportSize / itemSize` is `Infinity`/`NaN` when
`itemSize = 0` and the product follows the IEEE rules. -/
def getWheelItemDeltaE (s : Engine) (delta : ℚ) (deltaMode : ℕ) : EJS :=
  if deltaMode = 1 then .fin delta
  else if deltaMode = 2 then jsMulE (.fin delta) (jsDivQ s.viewportSize (itemSize s))
  else .fin (signQ delta)

/-- Translates `getVelocityItemStep(normalizedDelta)`. -/
def getVelocityItemStep (s : Engine) (normalizedDelta : ℚ) : ℚ :=
  let sign := signQ normalizedDelta
  if sign = 0 then 0
  else if |normalizedDelta| = 1 then sign * 1
  else sign * min (max |normalizedDelta| s.minVelocityItemStep) s.maxVelocityItemStep

/-- Translates `handleWheelPx(deltaY, deltaMode)`: accumulates a pixel-velocity step and
schedules the inertia loop when no frame is in flight. No offset is
committed and the observer is not invoked by the handler itself. -/
def handleWheelPx (s : Engine) (deltaY : ℚ) (deltaMode : ℕ) : Engine :=
  let deltaPx := getWheelPxDeltaFn s deltaY deltaMode
  let step := getVelocityPxStep s deltaPx
  { s with
    pxVelocity := s.pxVelocity + step
    wheelAnimationFrame :=
      if s.wheelAnimationFrame = none then some () else s.wheelAnimationFrame }

/-- Translates `handleWheelItems(deltaY, deltaMode)`. -/
def handleWheelItems (s : Engine) (deltaY : ℚ) (deltaMode : ℕ) : Engine :=
  let deltaItems := getWheelItemDelta s deltaY deltaMode
  let step := getVelocityItemStep s deltaItems
  { s with
    itemVelocity := s.itemVelocity + step
    wheelAnimationFrame :=
      if s.wheelAnimationFrame = none then some () else s.wheelAnimationFrame }

/-- Result record of `getVelocityPxValues` / `getVelocityItemValues`. -/
structure VelocityValues where
  scrollOffset : ℚ
  velocity : ℚ
deriving DecidableEq, Repr

/-- Translates `getVelocityPxValues(scrollOffset, velocityPx)`. -/
def getVelocityPxValues (s : Engine) (scrollOffset velocityPx : ℚ) :
    VelocityValues :=
  let scrollExtent := max s.contentSize s.viewportSize
  let maxOffset := scrollExtent - s.viewportSize
  let newScrollOffset := max 0 (min maxOffset (scrollOffset + velocityPx))
  { scrollOffset := newScrollOffset, velocity := velocityPx * s.inertiaDecay }

/-- Translates `getVelocityItemValues(scrollOffset, itemVelocity)` in the exact rational
model; faithful whenever `itemSize ≠ 0` (with `itemSize = 0` the JS code
produces `NaN` through `viewportSize % 0`). -/
def getVelocityItemValues (s : Engine) (scrollOffset itemVelocity : ℚ) :
    VelocityValues :=
  let scrollExtent := max s.contentSize s.viewportSize
  let remainder := jsMod s.viewportSize (itemSize s)
  let downOffset := if remainder = 0 then 0 else itemSize s - remainder
  let stepItems : ℤ := jsRound itemVelocity
  let nextVelocity := itemVelocity * s.inertiaDecay
  let newScrollOffset :=
    if 0 < stepItems then
      let baseIndex : ℤ := ⌊(scrollOffset - downOffset) / itemSize s⌋
      let newIndex : ℤ := ⌊((baseIndex : ℚ) + (stepItems : ℚ))⌋
      let visibleItemsFloat := s.viewportSize / itemSize s
      let maxIndex : ℚ := itemCount s - (⌈visibleItemsFloat⌉ : ℚ)
      let clampedIndex : ℚ := max 0 (min maxIndex (newIndex : ℚ))
      clampedIndex * itemSize s + downOffset
    else if stepItems < 0 then
      let baseIndex : ℤ := ⌈scrollOffset / itemSize s⌉
      let newIndex : ℤ := ⌈((baseIndex : ℚ) + (stepItems : ℚ))⌉
      let visibleItemsFloat := s.viewportSize / itemSize s
      let maxIndex : ℚ := itemCount s - (⌈visibleItemsFloat⌉ : ℚ)
      let clampedIndex : ℚ := max 0 (min maxIndex (newIndex : ℚ))
      clampedIndex * itemSize s
    else scrollOffset
  let maxOffset := scrollExtent - s.viewportSize
  { scrollOffset := max 0 (min maxOffset newScrollOffset),
    velocity := nextVelocity }

/-- One invocation of the `step` closure of `startWheelInertia("px", 0.5, …)`:
below the threshold it zeroes the pixel velocity and clears the frame;
otherwise it commits through `setScrollOffset` (observer fires iff the
offset changed) and reschedules. -/
def wheelInertiaTickPx (s : Engine) : Engine × Bool :=
  if |s.pxVelocity| < 1 / 2 then
    ({ s with pxVelocity := 0, wheelAnimationFrame := none }, false)
  else
    let values := getVelocityPxValues s s.scrollOffset s.pxVelocity
    ({ s with
        pxVelocity := values.velocity
        scrollOffset := values.scrollOffset
        wheelAnimationFrame := some () },
      decide (values.scrollOffset ≠ s.scrollOffset))

/-- One invocation of the `step` closure of `startWheelInertia("item", 0.01, …)`. -/
def wheelInertiaTickItem (s : Engine) : Engine × Bool :=
  if |s.itemVelocity| < 1 / 100 then
    ({ s with itemVelocity := 0, wheelAnimationFrame := none }, false)
  else
    let values := getVelocityItemValues s s.scrollOffset s.itemVelocity
    ({ s with
        itemVelocity := values.velocity
        scrollOffset := values.scrollOffset
        wheelAnimationFrame := some () },
      decide (values.scrollOffset ≠ s.scrollOffset))

/-- Translates `stopInertia()`: cancels a scheduled frame and zeroes both velocity
accumulators; it never touches the offset and never invokes the observer
(the returned flag records that no observer call occurs in the body). -/
def stopInertia (s : Engine) : Engine × Bool :=
  ({ s with wheelAnimationFrame := none, pxVelocity := 0, itemVelocity := 0 },
    false)

end Engine

/-- State of the mutable-field `VirtualScroll` class of `src/getWheelPxDelta.ts`
(the variant whose geometry is assigned through setters with measurement
reconciliation and whose handlers invoke `_onScroll` directly). -/
structure FieldEngine where
  viewportSize : ℚ
  contentSize : ℚ
  trackSize : ℚ
  itemSize : ℚ
  itemCount : ℚ
  minThumbSize : ℚ
  minVelocityPxStep : ℚ
  maxVelocityPxStep : ℚ
  minVelocityItemStep : ℚ
  maxVelocityItemStep : ℚ
  inertiaDecay : ℚ
  scrollOffset : ℚ
  pxVelocity : ℚ
  itemVelocity : ℚ
  wheelAnimationFrame : Option Unit
deriving DecidableEq, Repr

namespace FieldEngine

/-- Translates `get maxScrollOffset()`. -/
def maxScrollOffset (s : FieldEngine) : ℚ := max 0 (s.contentSize - s.viewportSize)

/-- Translates `get isScrollingNeeded()`. -/
def isScrollingNeeded (s : FieldEngine) : Bool := decide (s.viewportSize < s.contentSize)

/-- Translates `get scrollProgressRatio()`. -/
def scrollProgressRatio (s : FieldEngine) : ℚ :=
  if isScrollingNeeded s then s.scrollOffset / maxScrollOffset s else 0

/-- Translates `get thumbSize()`. -/
def thumbSize (s : FieldEngine) : ℚ :=
  if s.contentSize ≤ 0 ∨ s.trackSize = 0 then 0
  else max (min 1 (s.viewportSize / s.contentSize) * s.trackSize) s.minThumbSize

/-- Translates `get thumbTravelSize()`. -/
def thumbTravelSize (s : FieldEngine) : ℚ := max 0 (s.trackSize - thumbSize s)

/-- Translates `get trackToScrollFactor()`. -/
def trackToScrollFactor (s : FieldEngine) : ℚ :=
  if isScrollingNeeded s then thumbTravelSize s / maxScrollOffset s else 0

/-- Translates `updateMeasurements(oldRatio)`: measurement reconciliation against the
state's (already updated) geometry. -/
def updateMeasurements (s : FieldEngine) (oldRatio : ℚ) : FieldEngine :=
  if isScrollingNeeded s then
    { s with scrollOffset := max 0 (min oldRatio 1) * maxScrollOffset s }
  else
    { s with scrollOffset := 0 }

/-- Translates `set viewportSize(value)`: captures the old ratio, assigns, reconciles. -/
def setViewportSize (s : FieldEngine) (value : ℚ) : FieldEngine :=
  let oldRatio := scrollProgressRatio s
  updateMeasurements { s with viewportSize := value } oldRatio

/-- Translates `set contentSize(value)`: captures the old ratio, assigns, reconciles. -/
def setContentSize (s : FieldEngine) (value : ℚ) : FieldEngine :=
  let oldRatio := scrollProgressRatio s
  updateMeasurements { s with contentSize := value } oldRatio

/-- Translates `set trackSize(value)`: a plain assignment, no reconciliation. -/
def setTrackSize (s : FieldEngine) (value : ℚ) : FieldEngine :=
  { s with trackSize := value }

/-- Translates `handleDelta(delta)` of the mutable-field class: in the scrolling-needed
branch it assigns the clamped offset and then invokes `_onScroll`
unconditionally (the returned flag records the invocation). Rational
division is used; this is faithful whenever `trackToScrollFactor ≠ 0`. -/
def handleDelta (s : FieldEngine) (delta : ℚ) : FieldEngine × Bool :=
  if isScrollingNeeded s then
    let newScrollOffset :=
      max 0 (min (s.scrollOffset + delta / trackToScrollFactor s) (maxScrollOffset s))
    ({ s with scrollOffset := newScrollOffset }, true)
  else
    (s, false)

end FieldEngine

/-- State of the `VirtualScroll` class of `src/VirtualScroll.ts` (the
constructor-argument variant); its pixel-domain accumulator is named
`_wheelVelocity` there. -/
structure VS where
  viewportSize : ℚ
  contentSize : ℚ
  trackSize : ℚ
  itemSize : ℚ
  itemCount : ℚ
  minThumbSize : ℚ
  minVelocityPxStep : ℚ
  maxVelocityPxStep : ℚ
  minVelocityItemStep : ℚ
  maxVelocityItemStep : ℚ
  inertiaDecay : ℚ
  scrollOffset : ℚ
  wheelVelocity : ℚ
  itemVelocity : ℚ
  wheelAnimationFrame : Option Unit
deriving DecidableEq, Repr

namespace VS

/-- Translates `dispose()`: cancels any scheduled frame and zeroes both velocity
accumulators; no observer call occurs in the body (recorded by the flag). -/
def dispose (s : VS) : VS × Bool :=
  ({ s with wheelAnimationFrame := none, wheelVelocity := 0, itemVelocity := 0 },
    false)

end VS

/-- One step of the inertia velocity recursion performed by the `step`
closure of `startWheelInertia(…, threshold, …)`: below the stop threshold
the accumulator is set to exactly `0`; otherwise it is multiplied by the
decay factor (the `velocity` component of `getVelocityPxValues` /
`getVelocityItemValues`). -/
def inertiaVelTick (threshold decay v : ℚ) : ℚ :=
  if |v| < threshold then 0 else v * decay

/-- The velocity accumulator after `n` inertia ticks. -/
def inertiaVelIter (threshold decay : ℚ) : ℕ → ℚ → ℚ
  | 0, v => v
  | n + 1, v => inertiaVelTick threshold decay (inertiaVelIter threshold decay n v)

/-- A well-behaved sample engine: viewport 100, content 300, track 100,
item size 20, 15 items, default tuning, offset 50. -/
def engineA : Engine :=
  { viewportSize := 100
    contentSize := 300
    trackSize := 100
    getItemSize := some 20
    getItemCount := some 15
    minThumbSize := 12
    minVelocityPxStep := 10
    maxVelocityPxStep := 60
    minVelocityItemStep := 1
    maxVelocityItemStep := 3
    inertiaDecay := 7 / 10
    scrollOffset := 50
    pxVelocity := 0
    itemVelocity := 0
    wheelAnimationFrame := none }

/-- Degenerate geometry: scrolling is needed (content 200 > viewport 100)
but the track has size 0, so `trackToScrollFactor = 0`. -/
def trackZeroEngine : Engine :=
  { engineA with contentSize := 200, trackSize := 0 }

/-- Same degenerate geometry as `trackZeroEngine`, resting at offset 0. -/
def trackZeroEngineB : Engine :=
  { engineA with contentSize := 200, trackSize := 0, scrollOffset := 0 }

/-- An engine whose `getItemSize` callback returns 0. -/
def zeroItemEngine : Engine :=
  { engineA with getItemSize := some 0 }

/-- An engine with no `getItemSize` callback provided. -/
def noItemCbEngine : Engine :=
  { engineA with getItemSize := none }

/-- An engine with item-velocity clamps configured away from 1
(min 5, max 7), to exhibit the pixel-mode bypass of both clamps. -/
def engineOddSteps : Engine :=
  { engineA with minVelocityItemStep := 5, maxVelocityItemStep := 7 }

/-- A mutable-field engine resting exactly at its maximum scroll offset
(viewport 100, content 200, track 100, offset 100). -/
def fieldBoundaryEngine : FieldEngine :=
  { viewportSize := 100
    contentSize := 200
    trackSize := 100
    itemSize := 20
    itemCount := 10
    minThumbSize := 12
    minVelocityPxStep := 10
    maxVelocityPxStep := 60
    minVelocityItemStep := 1
    maxVelocityItemStep := 3
    inertiaDecay := 7 / 10
    scrollOffset := 100
    pxVelocity := 0
    itemVelocity := 0
    wheelAnimationFrame := none }

section HelperLemmas

lemma clamp_bounds_left {m x : ℚ} (hm : 0 ≤ m) :
    0 ≤ max 0 (min x m) ∧ max 0 (min x m) ≤ m :=
  ⟨le_max_left 0 _, max_le hm (min_le_right x m)⟩

lemma clamp_bounds_right {m x : ℚ} (hm : 0 ≤ m) :
    0 ≤ max 0 (min m x) ∧ max 0 (min m x) ≤ m :=
  ⟨le_max_left 0 _, max_le hm (min_le_left m x)⟩

lemma Engine.maxScrollOffset_nonneg (s : Engine) : 0 ≤ Engine.maxScrollOffset s :=
  le_max_left 0 _

lemma Engine.isScrollingNeeded_iff (s : Engine) :
    Engine.isScrollingNeeded s = true ↔ s.viewportSize < s.contentSize := by
  simp [Engine.isScrollingNeeded]

lemma Engine.maxScrollOffset_pos (s : Engine)
    (h : Engine.isScrollingNeeded s = true) : 0 < Engine.maxScrollOffset s := by
  rw [Engine.isScrollingNeeded_iff] at h
  exact lt_max_of_lt_right (sub_pos.mpr h)

lemma Engine.scrollExtent_sub (s : Engine) :
    max s.contentSize s.viewportSize - s.viewportSize = Engine.maxScrollOffset s := by
  rw [← max_sub_sub_right, sub_self, max_comm, Engine.maxScrollOffset]

end HelperLemmas

section HandleDeltaLemmas

lemma Engine.handleDelta_fst_of_factor_ne (s : Engine) (delta : ℚ)
    (hn : Engine.isScrollingNeeded s = true)
    (hf : Engine.trackToScrollFactor s ≠ 0) :
    (Engine.handleDelta s delta).1 =
      EJS.fin (max 0 (min (s.scrollOffset + delta / Engine.trackToScrollFactor s)
        (Engine.maxScrollOffset s))) := by
  simp [Engine.handleDelta, hn, jsDivQ, hf, jsAddE, jsMinE, jsMaxE]

lemma Engine.handleDelta_fst_of_factor_eq_pos (s : Engine) (delta : ℚ)
    (hn : Engine.isScrollingNeeded s = true)
    (hf : Engine.trackToScrollFactor s = 0) (hd : 0 < delta) :
    (Engine.handleDelta s delta).1 = EJS.fin (Engine.maxScrollOffset s) := by
  simp [Engine.handleDelta, hn, jsDivQ, hf, hd, jsAddE, jsMinE, jsMaxE,
    max_eq_right (Engine.maxScrollOffset_nonneg s)]

lemma Engine.handleDelta_fst_of_factor_eq_neg (s : Engine) (delta : ℚ)
    (hn : Engine.isScrollingNeeded s = true)
    (hf : Engine.trackToScrollFactor s = 0) (hd : delta < 0) :
    (Engine.handleDelta s delta).1 = EJS.fin 0 := by
  simp [Engine.handleDelta, hn, jsDivQ, hf, asymm hd, hd, jsAddE, jsMinE, jsMaxE]

end HandleDeltaLemmas

/-- C1: for every engine state satisfying the invariant
`0 ≤ scrollOffset ≤ maxScrollOffset`, the scroll offset committed by
`handleTrackClick`, `handlePageScroll`, `scrollItemIntoView` and a
pixel-domain inertia tick satisfies the invariant again; `handleDelta`
does too provided the delta is nonzero or `trackToScrollFactor` is
nonzero (a zero delta with a zero factor commits `NaN`, see the
counterexample), and an item-domain inertia tick does provided
`itemSize ≠ 0` (the model's validity region; with `itemSize = 0` the
source computes through `NaN`). -/
theorem C1_offset_invariant_preserved (s : Engine)
    (h0 : 0 ≤ s.scrollOffset) (h1 : s.scrollOffset ≤ Engine.maxScrollOffset s) :
    (∀ delta : ℚ, (delta ≠ 0 ∨ Engine.trackToScrollFactor s ≠ 0) →
      ∃ q : ℚ, (Engine.handleDelta s delta).1 = EJS.fin q ∧
        0 ≤ q ∧ q ≤ Engine.maxScrollOffset s) ∧
    (∀ c t : ℚ, 0 ≤ ((Engine.handleTrackClick s c t).1).scrollOffset ∧
      ((Engine.handleTrackClick s c t).1).scrollOffset ≤ Engine.maxScrollOffset s) ∧
    (∀ dir : Direction, 0 ≤ ((Engine.handlePageScroll s dir).1).scrollOffset ∧
      ((Engine.handlePageScroll s dir).1).scrollOffset ≤ Engine.maxScrollOffset s) ∧
    (∀ itemIndex : ℚ, ∀ align : Align,
      0 ≤ ((Engine.scrollItemIntoView s itemIndex align).1).scrollOffset ∧
      ((Engine.scrollItemIntoView s itemIndex align).1).scrollOffset ≤
        Engine.maxScrollOffset s) ∧
    (0 ≤ ((Engine.wheelInertiaTickPx s).1).scrollOffset ∧
      ((Engine.wheelInertiaTickPx s).1).scrollOffset ≤ Engine.maxScrollOffset s) ∧
    (Engine.itemSize s ≠ 0 →
      0 ≤ ((Engine.wheelInertiaTickItem s).1).scrollOffset ∧
      ((Engine.wheelInertiaTickItem s).1).scrollOffset ≤ Engine.maxScrollOffset s) := by
  have hM : 0 ≤ Engine.maxScrollOffset s := Engine.maxScrollOffset_nonneg s
  refine ⟨?_, ?_, ?_, ?_, ?_, ?_⟩
  · intro delta hd
    by_cases hn : Engine.isScrollingNeeded s = true
    · by_cases hf : Engine.trackToScrollFactor s = 0
      · rcases hd with hd | hd
        · rcases hd.lt_or_lt with hlt | hgt
          · exact ⟨0, Engine.handleDelta_fst_of_factor_eq_neg s delta hn hf hlt,
              le_refl 0, hM⟩
          · exact ⟨Engine.maxScrollOffset s,
              Engine.handleDelta_fst_of_factor_eq_pos s delta hn hf hgt, hM, le_refl _⟩
        · exact absurd hf hd
      · exact ⟨_, Engine.handleDelta_fst_of_factor_ne s delta hn hf,
          (clamp_bounds_left hM).1, (clamp_bounds_left hM).2⟩
    · refine ⟨s.scrollOffset, ?_, h0, h1⟩
      simp [Engine.handleDelta, hn]
  · intro c t
    by_cases hn : Engine.isScrollingNeeded s = true
    · by_cases ht : 0 < Engine.thumbTravelSize s
      · have hclamped :
            max 0 (min (c - t - Engine.thumbSize s / 2) (Engine.thumbTravelSize s)) ≤
              Engine.thumbTravelSize s :=
          max_le ht.le (min_le_right _ _)
        have hdiv1 :
            max 0 (min (c - t - Engine.thumbSize s / 2) (Engine.thumbTravelSize s)) /
              Engine.thumbTravelSize s ≤ 1 :=
          (div_le_one ht).mpr hclamped
        have hdiv0 :
            0 ≤ max 0 (min (c - t - Engine.thumbSize s / 2) (Engine.thumbTravelSize s)) /
              Engine.thumbTravelSize s :=
          div_nonneg (le_max_left 0 _) ht.le
        constructor
        · simp only [Engine.handleTrackClick, hn, if_true, ht]
          exact mul_nonneg hdiv0 hM
        · simp only [Engine.handleTrackClick, hn, if_true, ht]
          exact mul_le_of_le_one_left hM hdiv1
      · simp [Engine.handleTrackClick, hn, ht, hM]
    · simp only [Engine.handleTrackClick, hn]
      exact ⟨h0, h1⟩
  · intro dir
    by_cases hn : Engine.isScrollingNeeded s = true
    · simp only [Engine.handlePageScroll, hn, if_true, Engine.getPageScrollOffset,
        Engine.scrollExtent_sub]
      exact clamp_bounds_right hM
    · simp only [Engine.handlePageScroll, hn]
      exact ⟨h0, h1⟩
  · intro itemIndex align
    by_cases hn : Engine.isScrollingNeeded s = true
    · simp only [Engine.scrollItemIntoView, hn, if_true]
      exact clamp_bounds_left hM
    · simp only [Engine.scrollItemIntoView, hn]
      exact ⟨h0, h1⟩
  · by_cases hv : |s.pxVelocity| < 1 / 2
    · simp only [Engine.wheelInertiaTickPx, hv, if_true]
      exact ⟨h0, h1⟩
    · simp only [Engine.wheelInertiaTickPx, hv, if_false, Engine.getVelocityPxValues,
        Engine.scrollExtent_sub]
      exact clamp_bounds_right hM
  · intro _
    by_cases hv : |s.itemVelocity| < 1 / 100
    · simp only [Engine.wheelInertiaTickItem, hv, if_true]
      exact ⟨h0, h1⟩
    · simp only [Engine.wheelInertiaTickItem, hv, if_false, Engine.getVelocityItemValues,
        Engine.scrollExtent_sub]
      exact clamp_bounds_right hM

section ConcreteFacts

lemma Engine.handleDelta_fst_zero_of_factor_eq (s : Engine)
    (hn : Engine.isScrollingNeeded s = true)
    (hf : Engine.trackToScrollFactor s = 0) :
    (Engine.handleDelta s 0).1 = EJS.nan := by
  simp [Engine.handleDelta, hn, jsDivQ, hf, jsAddE, jsMinE, jsMaxE]

lemma trackZeroEngine_needed : Engine.isScrollingNeeded trackZeroEngine = true := by
  simp [Engine.isScrollingNeeded, trackZeroEngine, engineA]
  norm_num

lemma trackZeroEngine_factor : Engine.trackToScrollFactor trackZeroEngine = 0 := by
  simp [Engine.trackToScrollFactor, Engine.thumbTravelSize, Engine.thumbSize,
    Engine.maxScrollOffset, Engine.isScrollingNeeded, trackZeroEngine, engineA]

end ConcreteFacts

/-- Witness for C1 at a concrete state: `engineA` satisfies the invariant
and a nonzero delta commits a clamped finite offset. -/
theorem C1_offset_invariant_preserved_witness :
    (0 ≤ engineA.scrollOffset ∧
      engineA.scrollOffset ≤ Engine.maxScrollOffset engineA) ∧
    ((30 : ℚ) ≠ 0 ∨ Engine.trackToScrollFactor engineA ≠ 0) ∧
    (∃ q : ℚ, (Engine.handleDelta engineA 30).1 = EJS.fin q ∧
      0 ≤ q ∧ q ≤ Engine.maxScrollOffset engineA) ∧
    (0 ≤ ((Engine.handleTrackClick engineA 50 0).1).scrollOffset ∧
      ((Engine.handleTrackClick engineA 50 0).1).scrollOffset ≤
        Engine.maxScrollOffset engineA) :=
  ⟨⟨by norm_num [engineA], by norm_num [engineA, Engine.maxScrollOffset]⟩,
    Or.inl (by norm_num),
    (C1_offset_invariant_preserved engineA (by norm_num [engineA])
      (by norm_num [engineA, Engine.maxScrollOffset])).1 30 (Or.inl (by norm_num)),
    ((C1_offset_invariant_preserved engineA (by norm_num [engineA])
      (by norm_num [engineA, Engine.maxScrollOffset])).2.1 50 0)⟩

/-- Counterexample to C1 as stated: `trackZeroEngine` satisfies the
invariant (offset 50 in `[0, 100]`) and scrolling is needed, yet
`handleDelta(0)` commits `NaN` (JS `0 / 0`), which violates
`0 ≤ scrollOffset ≤ maxScrollOffset`. -/
theorem C1_counterexample :
    (0 ≤ trackZeroEngine.scrollOffset ∧
      trackZeroEngine.scrollOffset ≤ Engine.maxScrollOffset trackZeroEngine) ∧
    Engine.isScrollingNeeded trackZeroEngine = true ∧
    (Engine.handleDelta trackZeroEngine 0).1 = EJS.nan :=
  ⟨⟨by norm_num [trackZeroEngine, engineA],
      by norm_num [trackZeroEngine, engineA, Engine.maxScrollOffset]⟩,
    trackZeroEngine_needed,
    Engine.handleDelta_fst_zero_of_factor_eq trackZeroEngine
      trackZeroEngine_needed trackZeroEngine_factor⟩

/-- C2 (amended): in the pull-accessor engine, which commits through
`setScrollOffset`, every handler and inertia tick invokes the observer
exactly when the committed scroll offset differs from the previous one
(so a call that stays clamped at a boundary, or a below-threshold tick,
does not fire it), and the wheel handlers and `stopInertia` never change
the offset or fire. The mutable-field engine's `handleDelta` instead
invokes the observer unconditionally whenever scrolling is needed — see
the counterexample. -/
theorem C2_observer_fires_iff_offset_changes (s : Engine) :
    (∀ delta : ℚ, ∀ q : ℚ, (Engine.handleDelta s delta).1 = EJS.fin q →
      ((Engine.handleDelta s delta).2 = true ↔ q ≠ s.scrollOffset)) ∧
    (∀ c t : ℚ, (Engine.handleTrackClick s c t).2 = true ↔
      ((Engine.handleTrackClick s c t).1).scrollOffset ≠ s.scrollOffset) ∧
    (∀ dir : Direction, (Engine.handlePageScroll s dir).2 = true ↔
      ((Engine.handlePageScroll s dir).1).scrollOffset ≠ s.scrollOffset) ∧
    (∀ itemIndex : ℚ, ∀ align : Align,
      (Engine.scrollItemIntoView s itemIndex align).2 = true ↔
      ((Engine.scrollItemIntoView s itemIndex align).1).scrollOffset ≠ s.scrollOffset) ∧
    ((Engine.wheelInertiaTickPx s).2 = true ↔
      ((Engine.wheelInertiaTickPx s).1).scrollOffset ≠ s.scrollOffset) ∧
    ((Engine.wheelInertiaTickItem s).2 = true ↔
      ((Engine.wheelInertiaTickItem s).1).scrollOffset ≠ s.scrollOffset) ∧
    (∀ delta : ℚ, ∀ deltaMode : ℕ,
      (Engine.handleWheelPx s delta deltaMode).scrollOffset = s.scrollOffset ∧
      (Engine.handleWheelItems s delta deltaMode).scrollOffset = s.scrollOffset) ∧
    ((Engine.stopInertia s).2 = false ∧
      ((Engine.stopInertia s).1).scrollOffset = s.scrollOffset) := by
  refine ⟨?_, ?_, ?_, ?_, ?_, ?_, ?_, ?_⟩
  · intro delta q hq
    by_cases hn : Engine.isScrollingNeeded s = true
    · unfold Engine.handleDelta at hq ⊢
      rw [if_pos hn] at hq ⊢
      simp only at hq ⊢
      rw [hq]
      simp [Engine.setScrollOffsetFires]
    · unfold Engine.handleDelta at hq ⊢
      rw [if_neg hn] at hq ⊢
      simp only [EJS.fin.injEq] at hq
      simp [hq]
  · intro c t
    by_cases hn : Engine.isScrollingNeeded s = true
    · unfold Engine.handleTrackClick
      rw [if_pos hn]
      simp
    · unfold Engine.handleTrackClick
      rw [if_neg hn]
      simp
  · intro dir
    by_cases hn : Engine.isScrollingNeeded s = true
    · unfold Engine.handlePageScroll
      rw [if_pos hn]
      simp
    · unfold Engine.handlePageScroll
      rw [if_neg hn]
      simp
  · intro itemIndex align
    by_cases hn : Engine.isScrollingNeeded s = true
    · unfold Engine.scrollItemIntoView
      rw [if_pos hn]
      simp
    · unfold Engine.scrollItemIntoView
      rw [if_neg hn]
      simp
  · by_cases hv : |s.pxVelocity| < 1 / 2
    · unfold Engine.wheelInertiaTickPx
      rw [if_pos hv]
      simp
    · unfold Engine.wheelInertiaTickPx
      rw [if_neg hv]
      simp
  · by_cases hv : |s.itemVelocity| < 1 / 100
    · unfold Engine.wheelInertiaTickItem
      rw [if_pos hv]
      simp
    · unfold Engine.wheelInertiaTickItem
      rw [if_neg hv]
      simp
  · intro delta deltaMode
    exact ⟨rfl, rfl⟩
  · exact ⟨rfl, rfl⟩

section ConcreteFactsB

lemma engineA_needed : Engine.isScrollingNeeded engineA = true := by
  simp [Engine.isScrollingNeeded, engineA]
  norm_num

lemma engineA_factor : Engine.trackToScrollFactor engineA = 1 / 3 := by
  rw [Engine.trackToScrollFactor, if_pos engineA_needed]
  norm_num [Engine.thumbTravelSize, Engine.thumbSize, Engine.maxScrollOffset,
    engineA, min_def, max_def]

lemma engineA_handleDelta30 : (Engine.handleDelta engineA 30).1 = EJS.fin 140 := by
  rw [Engine.handleDelta_fst_of_factor_ne engineA 30 engineA_needed
    (by rw [engineA_factor]; norm_num)]
  rw [engineA_factor]
  norm_num [Engine.maxScrollOffset, engineA, min_def, max_def]

end ConcreteFactsB

/-- Witness for C2 at a concrete state: at `engineA`, `handleDelta(30)`
commits 140 and the observer fires exactly because 140 differs from the
previous offset 50. -/
theorem C2_observer_fires_iff_offset_changes_witness :
    (Engine.handleDelta engineA 30).1 = EJS.fin 140 ∧
    ((Engine.handleDelta engineA 30).2 = true ↔ (140 : ℚ) ≠ engineA.scrollOffset) :=
  ⟨engineA_handleDelta30,
    (C2_observer_fires_iff_offset_changes engineA).1 30 140 engineA_handleDelta30⟩

/-- Counterexample to C2 as stated: in the mutable-field engine
(`handleDelta` at src/getWheelPxDelta.ts lines 1268–1284), a call at the
clamped bottom boundary leaves the committed offset numerically unchanged
(100 → 100) yet still invokes the observer. -/
theorem C2_counterexample :
    FieldEngine.isScrollingNeeded fieldBoundaryEngine = true ∧
    (FieldEngine.handleDelta fieldBoundaryEngine 10).2 = true ∧
    ((FieldEngine.handleDelta fieldBoundaryEngine 10).1).scrollOffset =
      fieldBoundaryEngine.scrollOffset := by
  have hn : FieldEngine.isScrollingNeeded fieldBoundaryEngine = true := by
    simp [FieldEngine.isScrollingNeeded, fieldBoundaryEngine]
    norm_num
  refine ⟨hn, ?_, ?_⟩
  · unfold FieldEngine.handleDelta
    rw [if_pos hn]
  · unfold FieldEngine.handleDelta
    rw [if_pos hn]
    have hfac : FieldEngine.trackToScrollFactor fieldBoundaryEngine = 1 / 2 := by
      rw [FieldEngine.trackToScrollFactor, if_pos hn]
      norm_num [FieldEngine.thumbTravelSize, FieldEngine.thumbSize,
        FieldEngine.maxScrollOffset, fieldBoundaryEngine, min_def, max_def]
    simp only [hfac]
    norm_num [FieldEngine.maxScrollOffset, fieldBoundaryEngine, min_def, max_def]

/-- C3 (amended): when scrolling is needed and `trackToScrollFactor = 0`,
`handleDelta` with a **nonzero** delta commits a finite offset clamped to
the boundary in the delta's sign direction — `maxScrollOffset` for a
positive delta, `0` for a negative one (JS `delta / 0 = ±Infinity`, which
the clamp absorbs). With a zero delta the division is `0 / 0 = NaN` and
the committed value is `NaN`, not a finite offset — see the
counterexample. -/
theorem C3_zero_factor_clamps_to_sign_boundary (s : Engine) (delta : ℚ)
    (hn : Engine.isScrollingNeeded s = true)
    (hf : Engine.trackToScrollFactor s = 0) (hd : delta ≠ 0) :
    (Engine.handleDelta s delta).1 =
      EJS.fin (if 0 < delta then Engine.maxScrollOffset s else 0) := by
  rcases hd.lt_or_lt with hlt | hgt
  · rw [Engine.handleDelta_fst_of_factor_eq_neg s delta hn hf hlt,
      if_neg (asymm hlt)]
  · rw [Engine.handleDelta_fst_of_factor_eq_pos s delta hn hf hgt, if_pos hgt]

/-- Witness for C3 at a concrete state: `trackZeroEngine` needs scrolling,
has factor 0, and nonzero deltas commit the sign-direction boundary. -/
theorem C3_zero_factor_clamps_to_sign_boundary_witness :
    Engine.isScrollingNeeded trackZeroEngine = true ∧
    Engine.trackToScrollFactor trackZeroEngine = 0 ∧
    (5 : ℚ) ≠ 0 ∧
    (Engine.handleDelta trackZeroEngine 5).1 =
      EJS.fin (if (0 : ℚ) < 5 then Engine.maxScrollOffset trackZeroEngine else 0) ∧
    (Engine.handleDelta trackZeroEngine (-5)).1 =
      EJS.fin (if (0 : ℚ) < -5 then Engine.maxScrollOffset trackZeroEngine else 0) :=
  ⟨trackZeroEngine_needed, trackZeroEngine_factor, by norm_num,
    C3_zero_factor_clamps_to_sign_boundary trackZeroEngine 5
      trackZeroEngine_needed trackZeroEngine_factor (by norm_num),
    C3_zero_factor_clamps_to_sign_boundary trackZeroEngine (-5)
      trackZeroEngine_needed trackZeroEngine_factor (by norm_num)⟩

/-- Counterexample to C3 as stated ("for every delta"): with scrolling
needed and factor 0, a zero delta makes `handleDelta` commit `NaN`
(JS `0 / 0`), not a finite clamped offset. -/
theorem C3_counterexample :
    Engine.isScrollingNeeded trackZeroEngineB = true ∧
    Engine.trackToScrollFactor trackZeroEngineB = 0 ∧
    (Engine.handleDelta trackZeroEngineB 0).1 = EJS.nan := by
  have hn : Engine.isScrollingNeeded trackZeroEngineB = true := by
    simp [Engine.isScrollingNeeded, trackZeroEngineB, engineA]
    norm_num
  have hf : Engine.trackToScrollFactor trackZeroEngineB = 0 := by
    simp [Engine.trackToScrollFactor, Engine.thumbTravelSize, Engine.thumbSize,
      Engine.maxScrollOffset, Engine.isScrollingNeeded, trackZeroEngineB, engineA]
  exact ⟨hn, hf, Engine.handleDelta_fst_zero_of_factor_eq trackZeroEngineB hn hf⟩

/-- C4: assigning `viewportSize` or `contentSize` captures
`oldRatio = scrollProgressRatio` against the old geometry, applies the new
size, and commits `clamp(oldRatio, 0, 1) * newMaxScrollOffset` when
scrolling is needed under the new geometry and `0` otherwise; assigning
`trackSize` alone only stores the new track size and never changes
`scrollOffset`. -/
theorem C4_measurement_reconciliation (s : FieldEngine) (value : ℚ) :
    ((FieldEngine.setViewportSize s value).scrollOffset =
      if FieldEngine.isScrollingNeeded { s with viewportSize := value } then
        clampQ (FieldEngine.scrollProgressRatio s) 0 1 *
          FieldEngine.maxScrollOffset { s with viewportSize := value }
      else 0) ∧
    ((FieldEngine.setContentSize s value).scrollOffset =
      if FieldEngine.isScrollingNeeded { s with contentSize := value } then
        clampQ (FieldEngine.scrollProgressRatio s) 0 1 *
          FieldEngine.maxScrollOffset { s with contentSize := value }
      else 0) ∧
    FieldEngine.setTrackSize s value = { s with trackSize := value } := by
  refine ⟨?_, ?_, rfl⟩
  · unfold FieldEngine.setViewportSize FieldEngine.updateMeasurements
    by_cases h : FieldEngine.isScrollingNeeded { s with viewportSize := value } = true
    · rw [if_pos h, if_pos h]
      rfl
    · rw [if_neg h, if_neg h]
  · unfold FieldEngine.setContentSize FieldEngine.updateMeasurements
    by_cases h : FieldEngine.isScrollingNeeded { s with contentSize := value } = true
    · rw [if_pos h, if_pos h]
      rfl
    · rw [if_neg h, if_neg h]

/-- C5: with the geometry fixed, `scrollRatio` is monotone non-decreasing
in the stored `scrollOffset`; and whenever scrolling is needed, assigning
`scrollRatio = r` and reading it back returns `clamp(r, 0, 1)` exactly
(exact rational arithmetic). -/
theorem C5_ratio_monotone_and_roundtrip (s : Engine) :
    (∀ o1 o2 : ℚ, o1 ≤ o2 →
      Engine.scrollRatio { s with scrollOffset := o1 } ≤
        Engine.scrollRatio { s with scrollOffset := o2 }) ∧
    (∀ r : ℚ, Engine.isScrollingNeeded s = true →
      Engine.scrollRatio (Engine.setScrollRatio s r) = clampQ r 0 1) := by
  constructor
  · intro o1 o2 h
    by_cases hn : Engine.isScrollingNeeded s = true
    · have hn1 : Engine.isScrollingNeeded { s with scrollOffset := o1 } = true := hn
      have hn2 : Engine.isScrollingNeeded { s with scrollOffset := o2 } = true := hn
      have hM : 0 < Engine.maxScrollOffset s := Engine.maxScrollOffset_pos s hn
      unfold Engine.scrollRatio
      rw [if_pos hn1, if_pos hn2]
      exact (div_le_div_iff_of_pos_right hM).mpr h
    · have hn1 : Engine.isScrollingNeeded { s with scrollOffset := o1 } ≠ true := hn
      have hn2 : Engine.isScrollingNeeded { s with scrollOffset := o2 } ≠ true := hn
      unfold Engine.scrollRatio
      rw [if_neg hn1, if_neg hn2]
  · intro r hn
    have hM : 0 < Engine.maxScrollOffset s := Engine.maxScrollOffset_pos s hn
    unfold Engine.setScrollRatio
    rw [if_pos hn]
    have hn2 : Engine.isScrollingNeeded
        { s with scrollOffset := max 0 (min r 1) * Engine.maxScrollOffset s } = true := hn
    unfold Engine.scrollRatio
    rw [if_pos hn2]
    show max 0 (min r 1) * Engine.maxScrollOffset s / Engine.maxScrollOffset s = clampQ r 0 1
    rw [mul_div_assoc, div_self (ne_of_gt hM), mul_one, clampQ]

/-- Witness for C5 at a concrete state: monotonicity at offsets 10 ≤ 20 and
the set-then-get roundtrip at ratio 3/2 (clamped to 1). -/
theorem C5_ratio_monotone_and_roundtrip_witness :
    ((10 : ℚ) ≤ 20 ∧
      Engine.scrollRatio { engineA with scrollOffset := 10 } ≤
        Engine.scrollRatio { engineA with scrollOffset := 20 }) ∧
    (Engine.isScrollingNeeded engineA = true ∧
      Engine.scrollRatio (Engine.setScrollRatio engineA (3 / 2)) = clampQ (3 / 2) 0 1) :=
  ⟨⟨by norm_num,
      (C5_ratio_monotone_and_roundtrip engineA).1 10 20 (by norm_num)⟩,
    ⟨engineA_needed,
      (C5_ratio_monotone_and_roundtrip engineA).2 (3 / 2) engineA_needed⟩⟩

/-- C6: for every nonzero delta in pixel mode (`deltaMode = 0`),
`handleWheelItems` adds exactly `sign(delta) · 1` to the item-velocity
accumulator — for every configuration of `minVelocityItemStep` and
`maxVelocityItemStep`, since the `|normalizedDelta| = 1` branch of
`getVelocityItemStep` bypasses both clamps. -/
theorem C6_pixel_mode_adds_exactly_one_item (s : Engine) (delta : ℚ)
    (hd : delta ≠ 0) :
    (Engine.handleWheelItems s delta 0).itemVelocity =
      s.itemVelocity + signQ delta * 1 ∧
    (signQ delta = 1 ∨ signQ delta = -1) := by
  rcases hd.lt_or_lt with hlt | hgt
  · have hs : signQ delta = -1 := by rw [signQ, if_pos hlt]
    constructor
    · unfold Engine.handleWheelItems Engine.getWheelItemDelta Engine.getVelocityItemStep
      simp only [hs]
      norm_num [signQ]
    · exact Or.inr hs
  · have hs : signQ delta = 1 := by rw [signQ, if_neg (asymm hgt), if_pos hgt]
    constructor
    · unfold Engine.handleWheelItems Engine.getWheelItemDelta Engine.getVelocityItemStep
      simp only [hs]
      norm_num [signQ]
    · exact Or.inl hs

/-- Witness for C6 at a concrete state with the clamps configured away
from 1 (`minVelocityItemStep = 5`, `maxVelocityItemStep = 7`): one pixel
notch still adds exactly +1 item of velocity. -/
theorem C6_pixel_mode_adds_exactly_one_item_witness :
    (3 : ℚ) ≠ 0 ∧
    engineOddSteps.minVelocityItemStep = 5 ∧
    engineOddSteps.maxVelocityItemStep = 7 ∧
    (Engine.handleWheelItems engineOddSteps 3 0).itemVelocity =
      engineOddSteps.itemVelocity + signQ 3 * 1 :=
  ⟨by norm_num, rfl, rfl,
    (C6_pixel_mode_adds_exactly_one_item engineOddSteps 3 (by norm_num)).1⟩

section InertiaLemmas

lemma inertiaVelTick_zero (threshold decay : ℚ) :
    inertiaVelTick threshold decay 0 = 0 := by
  unfold inertiaVelTick
  split <;> simp

lemma inertiaVelIter_eq_zero_or_pow (threshold decay v : ℚ) :
    ∀ n : ℕ, inertiaVelIter threshold decay n v = 0 ∨
      inertiaVelIter threshold decay n v = v * decay ^ n := by
  intro n
  induction n with
  | zero => exact Or.inr (by simp [inertiaVelIter])
  | succ n ih =>
      rcases ih with h | h
      · left
        simp [inertiaVelIter, h, inertiaVelTick_zero]
      · unfold inertiaVelIter inertiaVelTick
        rw [h]
        split
        · exact Or.inl rfl
        · right
          rw [pow_succ, mul_assoc]

lemma inertiaVel_terminates (threshold decay v : ℚ) (hth : 0 < threshold)
    (h0 : 0 < decay) (h1 : decay < 1) :
    ∃ n : ℕ, inertiaVelIter threshold decay n v = 0 := by
  by_cases hv : v = 0
  · exact ⟨0, by simp [inertiaVelIter, hv]⟩
  · obtain ⟨N, hN⟩ :=
      exists_pow_lt_of_lt_one (div_pos hth (abs_pos.mpr hv)) h1
    have hsmall : |v * decay ^ N| < threshold := by
      rw [abs_mul, abs_pow, abs_of_pos h0]
      calc |v| * decay ^ N = decay ^ N * |v| := mul_comm _ _
        _ < threshold := (lt_div_iff₀ (abs_pos.mpr hv)).mp hN
    rcases inertiaVelIter_eq_zero_or_pow threshold decay v N with h | h
    · exact ⟨N, h⟩
    · refine ⟨N + 1, ?_⟩
      unfold inertiaVelIter inertiaVelTick
      rw [h, if_pos hsmall]

end InertiaLemmas

/-- C7: for every decay factor with `0 < decay < 1` and nonzero velocity,
one inertia tick strictly shrinks the velocity's magnitude (it either
decays it geometrically or, below the stop threshold, zeroes it), the two
engine ticks realize this recursion at their domain thresholds 0.5 (pixel)
and 0.01 (item), and from any start the accumulator is set to exactly 0
after finitely many ticks. -/
theorem C7_inertia_strictly_decays_and_terminates (decay v : ℚ)
    (h0 : 0 < decay) (h1 : decay < 1) (_hv : v ≠ 0) :
    (∀ threshold w : ℚ, 0 < threshold → w ≠ 0 →
      |inertiaVelTick threshold decay w| < |w|) ∧
    (∀ s : Engine, ((Engine.wheelInertiaTickPx s).1).pxVelocity =
      inertiaVelTick (1 / 2) s.inertiaDecay s.pxVelocity) ∧
    (∀ s : Engine, ((Engine.wheelInertiaTickItem s).1).itemVelocity =
      inertiaVelTick (1 / 100) s.inertiaDecay s.itemVelocity) ∧
    (∃ n : ℕ, inertiaVelIter (1 / 2) decay n v = 0) ∧
    (∃ n : ℕ, inertiaVelIter (1 / 100) decay n v = 0) := by
  refine ⟨?_, ?_, ?_, ?_, ?_⟩
  · intro threshold w _ hw
    unfold inertiaVelTick
    split
    · simpa using abs_pos.mpr hw
    · rw [abs_mul, abs_of_pos h0]
      exact mul_lt_of_lt_one_right (abs_pos.mpr hw) h1
  · intro s
    unfold Engine.wheelInertiaTickPx inertiaVelTick Engine.getVelocityPxValues
    split <;> rfl
  · intro s
    unfold Engine.wheelInertiaTickItem inertiaVelTick Engine.getVelocityItemValues
    split <;> rfl
  · exact inertiaVel_terminates (1 / 2) decay v (by norm_num) h0 h1
  · exact inertiaVel_terminates (1 / 100) decay v (by norm_num) h0 h1

/-- Witness for C7 at concrete inputs: decay 0.7, starting velocity 30
(the spec's Scenario D numbers). -/
theorem C7_inertia_strictly_decays_and_terminates_witness :
    (0 < (7 / 10 : ℚ) ∧ (7 / 10 : ℚ) < 1 ∧ (30 : ℚ) ≠ 0) ∧
    ((0 : ℚ) < 1 / 2 →
      |inertiaVelTick (1 / 2) (7 / 10) 30| < |(30 : ℚ)|) ∧
    (∃ n : ℕ, inertiaVelIter (1 / 2) (7 / 10) n 30 = 0) :=
  ⟨⟨by norm_num, by norm_num, by norm_num⟩,
    fun h => (C7_inertia_strictly_decays_and_terminates (7 / 10) 30
      (by norm_num) (by norm_num) (by norm_num)).1 (1 / 2) 30 h (by norm_num),
    (C7_inertia_strictly_decays_and_terminates (7 / 10) 30
      (by norm_num) (by norm_num) (by norm_num)).2.2.2.1⟩

/-- C8 (amended): the engine substitutes `1` for `itemSize` only when no
`getItemSize` callback is provided (the `?? 1` fallback fires on a missing
callback, not on a non-positive value); in that case page-mode wheel item
normalization always yields a finite value. A provided callback's value is
used unchanged even when it is `≤ 0`, and with `itemSize = 0` the
page-mode division yields `Infinity`/`NaN` — see the counterexample. -/
theorem C8_item_size_fallback_on_missing_callback (s : Engine) :
    (s.getItemSize = none →
      Engine.itemSize s = 1 ∧
      ∀ delta : ℚ, ∀ deltaMode : ℕ,
        ∃ q : ℚ, Engine.getWheelItemDeltaE s delta deltaMode = EJS.fin q) ∧
    (∀ q : ℚ, s.getItemSize = some q → Engine.itemSize s = q) := by
  constructor
  · intro hnone
    have hone : Engine.itemSize s = 1 := by
      rw [Engine.itemSize, hnone]
      rfl
    refine ⟨hone, ?_⟩
    intro delta deltaMode
    unfold Engine.getWheelItemDeltaE
    by_cases h1 : deltaMode = 1
    · rw [if_pos h1]
      exact ⟨delta, rfl⟩
    · rw [if_neg h1]
      by_cases h2 : deltaMode = 2
      · rw [if_pos h2, hone]
        refine ⟨delta * s.viewportSize, ?_⟩
        rw [jsDivQ, if_neg one_ne_zero, div_one, jsMulE]
      · rw [if_neg h2]
        exact ⟨signQ delta, rfl⟩
  · intro q hq
    rw [Engine.itemSize, hq]
    rfl

/-- Witness for C8 at a concrete state with no callback: `itemSize` is 1
and page-mode normalization stays finite. -/
theorem C8_item_size_fallback_on_missing_callback_witness :
    noItemCbEngine.getItemSize = none ∧
    Engine.itemSize noItemCbEngine = 1 ∧
    (∃ q : ℚ, Engine.getWheelItemDeltaE noItemCbEngine 3 2 = EJS.fin q) :=
  ⟨rfl,
    ((C8_item_size_fallback_on_missing_callback noItemCbEngine).1 rfl).1,
    ((C8_item_size_fallback_on_missing_callback noItemCbEngine).1 rfl).2 3 2⟩

/-- Counterexample to C8 as stated: a `getItemSize` callback returning 0
is **not** replaced by 1 (`itemSize` stays 0), and page-mode wheel item
normalization (`delta * (viewportSize / itemSize)`) then produces
`Infinity`. -/
theorem C8_counterexample :
    zeroItemEngine.getItemSize = some 0 ∧
    Engine.itemSize zeroItemEngine = 0 ∧
    Engine.getWheelItemDeltaE zeroItemEngine 1 2 = EJS.posInf := by
  refine ⟨rfl, rfl, ?_⟩
  have hviewport : zeroItemEngine.viewportSize = 100 := rfl
  unfold Engine.getWheelItemDeltaE
  norm_num [jsDivQ, jsMulE, hviewport, Engine.itemSize, zeroItemEngine, engineA]

section TrackClickLemmas

lemma Engine.handleTrackClick_offset (s : Engine) (c t : ℚ)
    (hn : Engine.isScrollingNeeded s = true) :
    ((Engine.handleTrackClick s c t).1).scrollOffset =
      (if 0 < Engine.thumbTravelSize s then
        max 0 (min (c - t - Engine.thumbSize s / 2) (Engine.thumbTravelSize s)) /
          Engine.thumbTravelSize s * Engine.maxScrollOffset s
      else 0) := by
  unfold Engine.handleTrackClick
  rw [if_pos hn]

lemma Engine.handleTrackClick_geometry (s : Engine) (c t : ℚ) :
    ((Engine.handleTrackClick s c t).1).viewportSize = s.viewportSize ∧
    ((Engine.handleTrackClick s c t).1).contentSize = s.contentSize ∧
    ((Engine.handleTrackClick s c t).1).trackSize = s.trackSize ∧
    ((Engine.handleTrackClick s c t).1).minThumbSize = s.minThumbSize := by
  unfold Engine.handleTrackClick
  split <;> exact ⟨rfl, rfl, rfl, rfl⟩

lemma Engine.thumbMetrics_offset_independent (s : Engine) (o : ℚ) :
    Engine.isScrollingNeeded { s with scrollOffset := o } =
        Engine.isScrollingNeeded s ∧
    Engine.thumbSize { s with scrollOffset := o } = Engine.thumbSize s ∧
    Engine.thumbTravelSize { s with scrollOffset := o } =
        Engine.thumbTravelSize s ∧
    Engine.maxScrollOffset { s with scrollOffset := o } =
        Engine.maxScrollOffset s :=
  ⟨rfl, rfl, rfl, rfl⟩

end TrackClickLemmas

/-- C9: when scrolling is needed, the offset committed by
`handleTrackClick(c, t)` is a function of `c − t` and the geometry only —
it does not depend on the prior `scrollOffset`, a call with the same
`c − t` commits the same value, and calling it twice in succession leaves
the same offset as calling it once. -/
theorem C9_track_click_memoryless_and_idempotent (s : Engine) (c t : ℚ)
    (hn : Engine.isScrollingNeeded s = true) :
    (∀ o : ℚ,
      ((Engine.handleTrackClick { s with scrollOffset := o } c t).1).scrollOffset =
      ((Engine.handleTrackClick s c t).1).scrollOffset) ∧
    (∀ c2 t2 : ℚ, c - t = c2 - t2 →
      ((Engine.handleTrackClick s c2 t2).1).scrollOffset =
      ((Engine.handleTrackClick s c t).1).scrollOffset) ∧
    ((Engine.handleTrackClick ((Engine.handleTrackClick s c t).1) c t).1).scrollOffset =
      ((Engine.handleTrackClick s c t).1).scrollOffset := by
  refine ⟨?_, ?_, ?_⟩
  · intro o
    have hn2 : Engine.isScrollingNeeded { s with scrollOffset := o } = true := hn
    rw [Engine.handleTrackClick_offset _ c t hn2,
      Engine.handleTrackClick_offset s c t hn]
    rfl
  · intro c2 t2 hct
    rw [Engine.handleTrackClick_offset s c2 t2 hn,
      Engine.handleTrackClick_offset s c t hn, hct]
  · have hs1 : (Engine.handleTrackClick s c t).1 =
        { s with scrollOffset := ((Engine.handleTrackClick s c t).1).scrollOffset } := by
      unfold Engine.handleTrackClick
      rw [if_pos hn]
    have hn2 : Engine.isScrollingNeeded
        { s with scrollOffset := ((Engine.handleTrackClick s c t).1).scrollOffset } =
          true := hn
    rw [hs1, Engine.handleTrackClick_offset _ c t hn2,
      Engine.handleTrackClick_offset s c t hn]
    rfl

/-- Witness for C9 at a concrete state: `engineA` needs scrolling; prior
offsets 77 and 50 give the same committed value, shifted coordinates with
the same difference agree, and a repeated click is a no-op. -/
theorem C9_track_click_memoryless_and_idempotent_witness :
    Engine.isScrollingNeeded engineA = true ∧
    ((Engine.handleTrackClick { engineA with scrollOffset := 77 } 50 0).1).scrollOffset =
      ((Engine.handleTrackClick engineA 50 0).1).scrollOffset ∧
    ((50 : ℚ) - 0 = 60 - 10 ∧
      ((Engine.handleTrackClick engineA 60 10).1).scrollOffset =
        ((Engine.handleTrackClick engineA 50 0).1).scrollOffset) ∧
    ((Engine.handleTrackClick ((Engine.handleTrackClick engineA 50 0).1) 50 0).1).scrollOffset =
      ((Engine.handleTrackClick engineA 50 0).1).scrollOffset :=
  ⟨engineA_needed,
    (C9_track_click_memoryless_and_idempotent engineA 50 0 engineA_needed).1 77,
    ⟨by norm_num,
      (C9_track_click_memoryless_and_idempotent engineA 50 0 engineA_needed).2.1 60 10
        (by norm_num)⟩,
    (C9_track_click_memoryless_and_idempotent engineA 50 0 engineA_needed).2.2⟩

/-- C10: `stopInertia` (pull-accessor engine) and `dispose`
(`src/VirtualScroll.ts`) clear the scheduled-frame handle and zero both
velocity accumulators, leave `scrollOffset` and every geometry and
configuration field unchanged, never invoke the observer, and are
idempotent — on every state, including the already-idle one. -/
theorem C10_stop_inertia_and_dispose_effect (s : Engine) (u : VS) :
    (((Engine.stopInertia s).1).wheelAnimationFrame = none ∧
      ((Engine.stopInertia s).1).pxVelocity = 0 ∧
      ((Engine.stopInertia s).1).itemVelocity = 0 ∧
      ((Engine.stopInertia s).1).scrollOffset = s.scrollOffset ∧
      ((Engine.stopInertia s).1).viewportSize = s.viewportSize ∧
      ((Engine.stopInertia s).1).contentSize = s.contentSize ∧
      ((Engine.stopInertia s).1).trackSize = s.trackSize ∧
      ((Engine.stopInertia s).1).getItemSize = s.getItemSize ∧
      ((Engine.stopInertia s).1).getItemCount = s.getItemCount ∧
      ((Engine.stopInertia s).1).minThumbSize = s.minThumbSize ∧
      ((Engine.stopInertia s).1).inertiaDecay = s.inertiaDecay ∧
      (Engine.stopInertia s).2 = false ∧
      Engine.stopInertia ((Engine.stopInertia s).1) = Engine.stopInertia s) ∧
    (((VS.dispose u).1).wheelAnimationFrame = none ∧
      ((VS.dispose u).1).wheelVelocity = 0 ∧
      ((VS.dispose u).1).itemVelocity = 0 ∧
      ((VS.dispose u).1).scrollOffset = u.scrollOffset ∧
      ((VS.dispose u).1).viewportSize = u.viewportSize ∧
      ((VS.dispose u).1).contentSize = u.contentSize ∧
      ((VS.dispose u).1).trackSize = u.trackSize ∧
      ((VS.dispose u).1).itemSize = u.itemSize ∧
      ((VS.dispose u).1).itemCount = u.itemCount ∧
      (VS.dispose u).2 = false ∧
      VS.dispose ((VS.dispose u).1) = VS.dispose u) :=
  ⟨⟨rfl, rfl, rfl, rfl, rfl, rfl, rfl, rfl, rfl, rfl, rfl, rfl, rfl⟩,
    ⟨rfl, rfl, rfl, rfl, rfl, rfl, rfl, rfl, rfl, rfl, rfl⟩⟩
